import Mathlib

/-!
Shallow embedding of `firefox-exporter` (src/main.rs): a per-profile
incremental exporter of Firefox visit history.  Machine integers are
modelled as `Nat`/`Int` with explicit `% 2 ^ 64` (u64 arithmetic wraps in
a release build) and the `u64 -> i64` cast written out.  File contents are
`List Char`; fallible operations return `Option` (`none` = the `unwrap()`
panic that aborts the whole process).
-/

/-- The persisted cursor record (struct `State`, src/main.rs:25-30).
Fields are `u64` in the source; modelled as `Nat`, with `% 2 ^ 64`
applied at the arithmetic that can overflow. -/
structure State where
  last_run : Nat
  last_sync : Nat
  last_historyvisit_id : Nat
deriving DecidableEq, Repr

/-- One row of the `moz_places` table.  The Rust struct `MozPlaces`
(src/main.rs:69-72) keeps only `url`; `id` is the key the SQL query
`SELECT url FROM moz_places where id = :place_id` matches on. -/
structure MozPlacesRow where
  id : Nat
  url : String
deriving DecidableEq, Repr

/-- One row of the `moz_historyvisits` table (struct `MozHistoryVisits`,
src/main.rs:74-80: `id: u32`, `place_id: u32`, `visit_date: i64`,
`visit_type: u8`). -/
structure MozHistoryVisits where
  id : Nat
  place_id : Nat
  visit_date : Int
  visit_type : Nat
deriving DecidableEq, Repr

/-- An exported record (struct `HistoryEntry`, src/main.rs:82-87). -/
structure HistoryEntry where
  date : String
  url : String
  visit_date : Int
deriving DecidableEq, Repr

/-- A snapshot database (`places.sqlite` copy): the two tables, each as the
list of rows in the order the SQLite engine enumerates them for a plain
`SELECT` (the queries in the source carry no `ORDER BY` clause). -/
structure Snapshot where
  places : List MozPlacesRow
  visits : List MozHistoryVisits
deriving DecidableEq, Repr

/-- The Rust cast `from_id as i64` (src/main.rs:163): a `u64` value
reinterpreted as `i64`, wrapping for values at or above `2 ^ 63`. -/
def i64_of_u64 (n : Nat) : Int :=
  if n < 2 ^ 63 then (n : Int) else (n : Int) - 2 ^ 64

/-- The timestamp string of src/main.rs:178-184:
`Local.timestamp(Local.timestamp_millis(visit_date / 1000).timestamp(), 0).to_string()`.
The microsecond value is divided by 1000 (ms), then by 1000 again
(seconds, which is what `.timestamp()` extracts).  The local-timezone
rendering of those epoch seconds is modelled by their decimal value; no
claim depends on the concrete text. -/
def formatLocalDate (visit_date : Int) : String :=
  toString ((visit_date.tdiv 1000).fdiv 1000)

/-- `Profile::get_place_entry` (src/main.rs:141-151): first row of
`SELECT url FROM moz_places where id = :place_id`, then `.unwrap()`:
`none` models the panic when no place row matches. -/
def get_place_entry (places : List MozPlacesRow) (place_id : Nat) : Option String :=
  (places.find? (fun p => p.id == place_id)).map (fun p => p.url)

/-- The row selection of `Profile::get_history` (src/main.rs:156-171):
`SELECT id, place_id, visit_date, visit_type FROM moz_historyvisits
where id > :from_id`, with `from_id` bound as `from_id as i64`.  There is
no `ORDER BY`, so the result keeps the engine's enumeration order. -/
def selectedVisits (from_id : Nat) (rows : List MozHistoryVisits) : List MozHistoryVisits :=
  rows.filter (fun v => decide (i64_of_u64 from_id < (v.id : Int)))

/-- `Profile::get_history` (src/main.rs:153-189): for each selected visit,
resolve its place to a URL and build a `HistoryEntry`; a missing place row
panics (`none`) and loses the whole extraction. -/
def get_history (db : Snapshot) (from_id : Nat) : Option (List HistoryEntry) :=
  (selectedVisits from_id db.visits).mapM (fun v =>
    (get_place_entry db.places v.place_id).map (fun url =>
      { date := formatLocalDate v.visit_date
        url := url
        visit_date := v.visit_date }))

/-- Outcome of one profile's pass through the loop body of `main`:
the state record on disk afterwards, the export file's content when one
was written, and whether the process panicked (aborting the run). -/
structure RunOutcome where
  persisted : State
  exportFile : Option (List HistoryEntry)
  panicked : Bool
deriving DecidableEq, Repr

/-- The loop body of `main` (src/main.rs:208-246) for one profile.
`st` is the profile's state as loaded from disk, `now` the wall-clock
milliseconds (`as_millis()` is `u128`; the `as u64` cast is the
`% 2 ^ 64`), `writeOk` whether `write_history_to_file` succeeds.  On a
panic (missing place, or a failed export write whose `.unwrap()` aborts
before the state is touched) nothing is persisted, so the on-disk state
stays `st`.  The concluding `state.to_json` call is modelled as
recording the in-memory record; its own failure modes are modelled
separately by `State.to_json`. -/
def runProfile (st : State) (db : Snapshot) (now : Nat) (writeOk : Bool) : RunOutcome :=
  let nowU := now % 2 ^ 64
  match get_history db st.last_historyvisit_id with
  | none => ⟨st, none, true⟩
  | some history =>
    if 0 < history.length then
      if writeOk then
        ⟨⟨nowU, nowU, (st.last_historyvisit_id + history.length) % 2 ^ 64⟩,
          some history, false⟩
      else ⟨st, none, true⟩
    else ⟨⟨nowU, st.last_sync, st.last_historyvisit_id⟩, none, false⟩

/-- Input for one configured profile: whether its live `places.sqlite`
can be copied, the snapshot contents, and the state loaded for it. -/
structure ProfileInput where
  sourceAvailable : Bool
  db : Snapshot
  state : State

/-- `Context::backup_places` (src/main.rs:133-138): copies every
profile's live database, `.unwrap()`-ing each `fs::copy`; the whole call
succeeds only when every profile's source file is readable (the first
failure panics the process). -/
def backup_places (ps : List ProfileInput) : Bool :=
  ps.all (fun p => p.sourceAvailable)

/-- The per-profile loop of `main` (src/main.rs:208-246): profiles are
processed in order until one panics (a panic aborts the process, so the
remaining profiles are not reached). -/
def runAll : List ProfileInput → Nat → Bool → List RunOutcome
  | [], _, _ => []
  | p :: ps, now, writeOk =>
    let r := runProfile p.state p.db now writeOk
    if r.panicked then [r] else r :: runAll ps now writeOk

/-- `main` (src/main.rs:203-247): `backup_places` runs over all profiles
before the loop; if any copy fails the process panics (`none`) and no
profile is processed at all. -/
def mainRun (ps : List ProfileInput) (now : Nat) (writeOk : Bool) :
    Option (List RunOutcome) :=
  if backup_places ps then some (runAll ps now writeOk) else none

/-! ## The state file on disk

`State::to_json` / `State::from_json` (src/main.rs:32-58) go through
`serde_json`.  The bytes the serializer emits and the parser reads are
modelled as `List Char`. -/

/-- Decimal digit characters, as `serde_json` prints them. -/
def myDigitChar : Nat → Char
  | 0 => '0' | 1 => '1' | 2 => '2' | 3 => '3' | 4 => '4'
  | 5 => '5' | 6 => '6' | 7 => '7' | 8 => '8' | _ => '9'

/-- Little-endian base-10 digits of `n`, with an explicit fuel so the
recursion is structural (the fuel `n` itself always suffices). -/
def digitsRevFuel : Nat → Nat → List Nat
  | 0, _ => []
  | _ + 1, 0 => []
  | fuel + 1, n => n % 10 :: digitsRevFuel fuel (n / 10)

/-- Decimal rendering of a natural number (no sign, no leading zeros),
exactly what `serde_json` emits for a `u64`. -/
def natChars (n : Nat) : List Char :=
  if n = 0 then ['0'] else ((digitsRevFuel n n).map myDigitChar).reverse

/-- ASCII decimal digit test. -/
def isDigitChar (c : Char) : Bool :=
  48 ≤ c.toNat && c.toNat ≤ 57

/-- JSON whitespace (`serde_json` skips these after the top-level value). -/
def isWsChar (c : Char) : Bool :=
  c = ' ' || c = '\n' || c = '\t' || c = '\r'

/-- Value of a big-endian list of digit characters. -/
def natOfChars (ds : List Char) : Nat :=
  Nat.ofDigits 10 ((ds.map (fun c => c.toNat - 48)).reverse)

/-- Consume an expected literal prefix; `none` models a parse error. -/
def expectChars : List Char → List Char → Option (List Char)
  | [], rest => some rest
  | _ :: _, [] => none
  | c :: cs, d :: ds => if c = d then expectChars cs ds else none

/-- Parse a `u64` number: one or more digits, value below `2 ^ 64`
(`serde_json` rejects out-of-range values for a `u64` field). -/
def parseNumber (cs : List Char) : Option (Nat × List Char) :=
  let ds := cs.takeWhile isDigitChar
  if ds.isEmpty then none
  else if natOfChars ds < 2 ^ 64 then some (natOfChars ds, cs.dropWhile isDigitChar)
  else none

/-- `serde_json::to_writer_pretty` serializes `to_value(&State)`, a
`serde_json::Value` whose object map orders keys alphabetically:
`last_historyvisit_id`, `last_run`, `last_sync`.  These are the literal
fragments between the numbers.  Opening fragment. -/
def litHv : List Char :=
  ['{', '\n', ' ', ' ', '"', 'l', 'a', 's', 't', '_', 'h', 'i', 's', 't',
   'o', 'r', 'y', 'v', 'i', 's', 'i', 't', '_', 'i', 'd', '"', ':', ' ']

/-- Fragment between the first number and the `last_run` value. -/
def litRun : List Char :=
  [',', '\n', ' ', ' ', '"', 'l', 'a', 's', 't', '_', 'r', 'u', 'n', '"', ':', ' ']

/-- Fragment between the second number and the `last_sync` value. -/
def litSync : List Char :=
  [',', '\n', ' ', ' ', '"', 'l', 'a', 's', 't', '_', 's', 'y', 'n', 'c', '"', ':', ' ']

/-- Closing fragment of the pretty-printed object. -/
def litClose : List Char := ['\n', '}']

/-- The exact character sequence `State::to_json` hands to the file
writer for a given state. -/
def renderState (s : State) : List Char :=
  litHv ++ natChars s.last_historyvisit_id ++
  litRun ++ natChars s.last_run ++
  litSync ++ natChars s.last_sync ++ litClose

/-- The parse performed by `State::from_json`
(`serde_json::from_reader` then `from_value`): the pretty object in the
shape `to_json` writes, followed by at most whitespace (`from_reader`
errors on trailing non-whitespace, and the `.unwrap()` turns that into a
panic, modelled as `none`). -/
def parseState (cs : List Char) : Option State :=
  (expectChars litHv cs).bind fun r1 =>
  (parseNumber r1).bind fun p1 =>
  (expectChars litRun p1.2).bind fun r2 =>
  (parseNumber r2).bind fun p2 =>
  (expectChars litSync p2.2).bind fun r3 =>
  (parseNumber r3).bind fun p3 =>
  (expectChars litClose p3.2).bind fun r4 =>
  if r4.all isWsChar then some ⟨p2.1, p3.1, p1.1⟩ else none

/-- `State::to_json` (src/main.rs:49-58): the target file is opened with
`create(true).write(true)` and NO `truncate`, so the serialization is
written over the existing bytes in place.  `old` is the file's prior
content (`[]` if the file did not exist), `written` how many characters
the write completed before an I/O failure stopped it (`written` =
the full length on success).  Byte `i < written` holds the new
serialization's byte; every byte of `old` beyond `written` survives. -/
def State.to_json (s : State) (old : List Char) (written : Nat) : List Char :=
  (renderState s).take written ++ old.drop written

/-- `State::from_json` (src/main.rs:32-47): defaults `{0,0,0}` when no
file exists at the path; otherwise parses the content, panicking
(`none`) when the parse fails. -/
def State.from_json (file : Option (List Char)) : Option State :=
  match file with
  | none => some ⟨0, 0, 0⟩
  | some content => parseState content

/-! ## Helper lemmas for the state-file round trip -/

theorem expectChars_append (pat rest : List Char) :
    expectChars pat (pat ++ rest) = some rest := by
  induction pat with
  | nil => rfl
  | cons c cs ih => simp [expectChars, ih]

theorem myDigitChar_toNat (d : Nat) (hd : d < 10) :
    (myDigitChar d).toNat = 48 + d := by
  interval_cases d <;> rfl

theorem isDigitChar_myDigitChar (d : Nat) (hd : d < 10) :
    isDigitChar (myDigitChar d) = true := by
  interval_cases d <;> rfl

theorem digitsRevFuel_eq_digits (fuel : Nat) : ∀ n, n ≤ fuel →
    digitsRevFuel fuel n = Nat.digits 10 n := by
  induction fuel with
  | zero =>
    intro n h
    have hn : n = 0 := Nat.le_zero.mp h
    subst hn
    simp [digitsRevFuel]
  | succ f ih =>
    intro n h
    cases n with
    | zero => simp [digitsRevFuel]
    | succ m =>
      simp only [digitsRevFuel]
      rw [ih ((m + 1) / 10) (by omega),
        Nat.digits_def' (by norm_num : (1 : Nat) < 10) (Nat.succ_pos m)]

theorem natChars_eq_digits (n : Nat) :
    natChars n = if n = 0 then ['0'] else ((Nat.digits 10 n).map myDigitChar).reverse := by
  unfold natChars
  rw [digitsRevFuel_eq_digits n n le_rfl]

theorem natChars_all_digit (n : Nat) : ∀ c ∈ natChars n, isDigitChar c = true := by
  intro c hc
  rw [natChars_eq_digits] at hc
  by_cases h : n = 0
  · rw [if_pos h] at hc
    simp at hc
    subst hc
    rfl
  · rw [if_neg h] at hc
    rw [List.mem_reverse, List.mem_map] at hc
    obtain ⟨d, hd, rfl⟩ := hc
    exact isDigitChar_myDigitChar d (Nat.digits_lt_base (by norm_num) hd)

theorem natChars_ne_nil (n : Nat) : natChars n ≠ [] := by
  rw [natChars_eq_digits]
  by_cases h : n = 0
  · simp [h]
  · rw [if_neg h]
    simp [Nat.digits_ne_nil_iff_ne_zero.mpr h]

theorem natOfChars_natChars (n : Nat) : natOfChars (natChars n) = n := by
  by_cases h : n = 0
  · subst h; rfl
  · unfold natOfChars
    rw [natChars_eq_digits, if_neg h, List.map_reverse, List.reverse_reverse,
      List.map_map]
    have hmap : (Nat.digits 10 n).map ((fun c => c.toNat - 48) ∘ myDigitChar) =
        (Nat.digits 10 n).map id := by
      apply List.map_congr_left
      intro d hd
      have hlt : d < 10 := Nat.digits_lt_base (by norm_num) hd
      simp [Function.comp, myDigitChar_toNat d hlt]
    rw [hmap, List.map_id, Nat.ofDigits_digits]

theorem takeWhile_all_append (p : Char → Bool) (ds rest : List Char)
    (h : ∀ c ∈ ds, p c = true) :
    (ds ++ rest).takeWhile p = ds ++ rest.takeWhile p := by
  induction ds with
  | nil => rfl
  | cons c cs ih =>
    simp only [List.cons_append, List.takeWhile_cons, h c (by simp)]
    simp [ih (fun x hx => h x (by simp [hx]))]

theorem dropWhile_all_append (p : Char → Bool) (ds rest : List Char)
    (h : ∀ c ∈ ds, p c = true) :
    (ds ++ rest).dropWhile p = rest.dropWhile p := by
  induction ds with
  | nil => rfl
  | cons c cs ih =>
    simp only [List.cons_append, List.dropWhile_cons, h c (by simp)]
    simp [ih (fun x hx => h x (by simp [hx]))]

theorem parseNumber_natChars (n : Nat) (hn : n < 2 ^ 64) (r : Char) (rs : List Char)
    (hr : isDigitChar r = false) :
    parseNumber (natChars n ++ r :: rs) = some (n, r :: rs) := by
  unfold parseNumber
  rw [takeWhile_all_append _ _ _ (natChars_all_digit n),
      dropWhile_all_append _ _ _ (natChars_all_digit n),
      List.takeWhile_cons, List.dropWhile_cons, hr]
  simp [natChars_ne_nil n, natOfChars_natChars n]
  omega

theorem parseNumber_litRun (n : Nat) (hn : n < 2 ^ 64) (X : List Char) :
    parseNumber (natChars n ++ (litRun ++ X)) = some (n, litRun ++ X) := by
  rw [show litRun ++ X = ',' :: (litRun.tail ++ X) from rfl,
      parseNumber_natChars n hn ',' (litRun.tail ++ X) rfl]

theorem parseNumber_litSync (n : Nat) (hn : n < 2 ^ 64) (X : List Char) :
    parseNumber (natChars n ++ (litSync ++ X)) = some (n, litSync ++ X) := by
  rw [show litSync ++ X = ',' :: (litSync.tail ++ X) from rfl,
      parseNumber_natChars n hn ',' (litSync.tail ++ X) rfl]

theorem parseNumber_litClose (n : Nat) (hn : n < 2 ^ 64) :
    parseNumber (natChars n ++ litClose) = some (n, litClose) := by
  rw [show (litClose : List Char) = '\n' :: litClose.tail from rfl,
      parseNumber_natChars n hn '\n' litClose.tail rfl]

theorem parseState_renderState (s : State)
    (h1 : s.last_run < 2 ^ 64) (h2 : s.last_sync < 2 ^ 64)
    (h3 : s.last_historyvisit_id < 2 ^ 64) :
    parseState (renderState s) = some s := by
  obtain ⟨a, b, c⟩ := s
  unfold renderState parseState
  simp only [List.append_assoc]
  rw [expectChars_append, Option.some_bind,
      parseNumber_litRun c h3, Option.some_bind,
      expectChars_append, Option.some_bind,
      parseNumber_litSync a h1, Option.some_bind,
      expectChars_append, Option.some_bind,
      parseNumber_litClose b h2, Option.some_bind]
  rfl

/-! ## Claims -/

/-- Claim C1, counterexample: the cursor is a `u64` and `main` advances it
with a plain addition, so with the on-disk cursor at `2 ^ 64 - 1` (the
state file is external input and `State::from_json` accepts any `u64`)
a run whose extraction yields one record and whose write succeeds leaves
a persisted cursor of `0`, not old cursor + 1: the addition wraps (and
the cast `from_id as i64` makes the query return the record).  -/
theorem c1_counterexample :
    ((get_history ⟨[⟨1, "a"⟩], [⟨1, 1, 1000, 1⟩]⟩ (2 ^ 64 - 1)).map List.length =
      some 1) ∧
    (runProfile ⟨0, 0, 2 ^ 64 - 1⟩ ⟨[⟨1, "a"⟩], [⟨1, 1, 1000, 1⟩]⟩ 5
        true).persisted.last_historyvisit_id ≠ 2 ^ 64 - 1 + 1 := by
  constructor
  · rfl
  · decide

/-- Claim C1 (amended): if extraction yields `k` records, the export
write succeeds, and the old cursor plus `k` does not overflow a `u64`,
then the persisted cursor equals the old cursor plus `k` (and the batch
written is exactly the extracted one). -/
theorem c1_advance_amended (st : State) (db : Snapshot) (now : Nat)
    (h : List HistoryEntry) (hget : get_history db st.last_historyvisit_id = some h)
    (hlen : 0 < h.length) (hnoof : st.last_historyvisit_id + h.length < 2 ^ 64) :
    (runProfile st db now true).persisted.last_historyvisit_id =
      st.last_historyvisit_id + h.length ∧
    (runProfile st db now true).exportFile = some h := by
  have hnoofN : st.last_historyvisit_id + h.length < 18446744073709551616 := hnoof
  unfold runProfile
  rw [hget]
  simp [hlen, Nat.mod_eq_of_lt hnoofN]

/-- Witness for C1: cursor 0, one new visit, successful write: the
persisted cursor is 1 and the export holds the extracted entry. -/
theorem c1_advance_witness :
    (runProfile ⟨0, 0, 0⟩ ⟨[⟨1, "a"⟩], [⟨1, 1, 1000, 1⟩]⟩ 5
        true).persisted.last_historyvisit_id = 0 + 1 ∧
    (runProfile ⟨0, 0, 0⟩ ⟨[⟨1, "a"⟩], [⟨1, 1, 1000, 1⟩]⟩ 5 true).exportFile =
      some [⟨"0", "a", 1000⟩] :=
  c1_advance_amended ⟨0, 0, 0⟩ ⟨[⟨1, "a"⟩], [⟨1, 1, 1000, 1⟩]⟩ 5
    [⟨"0", "a", 1000⟩] (by decide) (by decide) (by decide)

/-- Claim C2, counterexample: the query binds the cursor as
`from_id as i64`; for a stored cursor `N = 2 ^ 63` that cast wraps to
`-2 ^ 63`, so a visit with identifier `5 ≤ N` is selected — extraction
yields a record with identifier ≤ N. -/
theorem c2_counterexample :
    selectedVisits (2 ^ 63) [⟨5, 1, 0, 1⟩] = [⟨5, 1, 0, 1⟩] ∧
    (5 : Nat) ≤ 2 ^ 63 := by
  constructor
  · decide
  · decide

/-- Claim C2 (amended): for every stored cursor `N` below `2 ^ 63` (so
the `u64 -> i64` cast is value-preserving), every visit record selected
by extraction has identifier strictly greater than `N`. -/
theorem c2_no_reexport_amended (N : Nat) (hN : N < 2 ^ 63)
    (rows : List MozHistoryVisits) (v : MozHistoryVisits)
    (hv : v ∈ selectedVisits N rows) : (N : Int) < (v.id : Int) := by
  unfold selectedVisits at hv
  have hmem := List.mem_filter.mp hv
  have h2 := of_decide_eq_true hmem.2
  rwa [i64_of_u64, if_pos hN] at h2

/-- Witness for C2: with cursor 2 the selected visit with identifier 5
indeed satisfies 2 < 5. -/
theorem c2_no_reexport_witness :
    ((2 : Nat) : Int) < ((⟨5, 1, 0, 1⟩ : MozHistoryVisits).id : Int) :=
  c2_no_reexport_amended 2 (by decide) [⟨5, 1, 0, 1⟩] ⟨5, 1, 0, 1⟩ (by decide)

/-- Claim C3, counterexample: with the on-disk cursor at `2 ^ 64 - 1`
(any `u64` state file is accepted) and one record extracted and written,
the `u64` addition wraps and the cursor after the run is `0`, strictly
below its value before the run. -/
theorem c3_counterexample :
    (runProfile ⟨0, 0, 2 ^ 64 - 1⟩ ⟨[⟨2, "b"⟩], [⟨2, 2, 500, 1⟩]⟩ 7
        true).persisted.last_historyvisit_id <
      (⟨0, 0, 2 ^ 64 - 1⟩ : State).last_historyvisit_id := by
  decide

/-- Claim C3 (amended): provided the cursor plus the batch length cannot
overflow a `u64`, the persisted cursor after a run is ≥ its value before
the run, and it changes only when the export write succeeded and an
export file was produced. -/
theorem c3_monotone_amended (st : State) (db : Snapshot) (now : Nat) (writeOk : Bool)
    (hnoof : ∀ h, get_history db st.last_historyvisit_id = some h →
      st.last_historyvisit_id + h.length < 2 ^ 64) :
    st.last_historyvisit_id ≤
      (runProfile st db now writeOk).persisted.last_historyvisit_id ∧
    ((runProfile st db now writeOk).persisted.last_historyvisit_id ≠
        st.last_historyvisit_id →
      writeOk = true ∧ (runProfile st db now writeOk).exportFile.isSome = true) := by
  unfold runProfile
  cases hg : get_history db st.last_historyvisit_id with
  | none => simp
  | some h =>
    by_cases hl : 0 < h.length
    · cases writeOk with
      | false => simp [hl]
      | true =>
        have hnoofN : st.last_historyvisit_id + h.length < 18446744073709551616 :=
          hnoof h hg
        simp [hl, Nat.mod_eq_of_lt hnoofN, Nat.le_add_right]
    · simp [hl]

/-- Witness for C3: cursor 3, one new visit (identifier 5), successful
write: the persisted cursor does not decrease. -/
theorem c3_monotone_witness :
    (3 : Nat) ≤ (runProfile ⟨0, 0, 3⟩ ⟨[⟨1, "a"⟩], [⟨5, 1, 0, 1⟩]⟩ 9
        true).persisted.last_historyvisit_id :=
  (c3_monotone_amended ⟨0, 0, 3⟩ ⟨[⟨1, "a"⟩], [⟨5, 1, 0, 1⟩]⟩ 9 true
    (by
      intro h hh
      rw [show get_history ⟨[⟨1, "a"⟩], [⟨5, 1, 0, 1⟩]⟩ (3 : Nat) =
          some [⟨"0", "a", 0⟩] from by decide] at hh
      cases hh
      decide)).1

/-- Claim C4 (confirmed): when the export write fails, the `.unwrap()`
panics before the state is touched, so the on-disk state is exactly the
old one — `last_historyvisit_id`, `last_sync` (and `last_run`) keep
their prior values, no export is recorded, and a next run would
re-extract the same records. -/
theorem c4_write_failure_rollback (st : State) (db : Snapshot) (now : Nat)
    (h : List HistoryEntry) (hget : get_history db st.last_historyvisit_id = some h)
    (hlen : 0 < h.length) :
    runProfile st db now false = ⟨st, none, true⟩ ∧
    get_history db (runProfile st db now false).persisted.last_historyvisit_id =
      get_history db st.last_historyvisit_id := by
  have hmain : runProfile st db now false = ⟨st, none, true⟩ := by
    unfold runProfile
    rw [hget]
    simp [hlen]
  exact ⟨hmain, by rw [hmain]⟩

/-- Witness for C4: one extractable visit, write failure: the outcome
keeps the old state on disk and marks the panic. -/
theorem c4_write_failure_rollback_witness :
    runProfile ⟨10, 20, 0⟩ ⟨[⟨1, "a"⟩], [⟨1, 1, 1000, 1⟩]⟩ 99 false =
      ⟨⟨10, 20, 0⟩, none, true⟩ ∧
    get_history ⟨[⟨1, "a"⟩], [⟨1, 1, 1000, 1⟩]⟩
        (runProfile ⟨10, 20, 0⟩ ⟨[⟨1, "a"⟩], [⟨1, 1, 1000, 1⟩]⟩ 99
          false).persisted.last_historyvisit_id =
      get_history ⟨[⟨1, "a"⟩], [⟨1, 1, 1000, 1⟩]⟩ (0 : Nat) :=
  c4_write_failure_rollback ⟨10, 20, 0⟩ ⟨[⟨1, "a"⟩], [⟨1, 1, 1000, 1⟩]⟩ 99
    [⟨"0", "a", 1000⟩] (by decide) (by decide)

/-- Claim C5 (code bug): on a snapshot holding a resolvable visit
(identifier 1, place 1) and a visit whose place reference 99 has no
matching place row, extraction does not skip the dangling record and
continue — `get_place_entry` finds no row and the source's `.unwrap()`
panics, so `get_history` aborts (`none`) and even the resolvable record
is lost. -/
theorem c5_missing_place_crash :
    get_place_entry [⟨1, "a"⟩] 99 = none ∧
    get_history ⟨[⟨1, "a"⟩], [⟨1, 1, 10, 1⟩, ⟨2, 99, 20, 1⟩]⟩ 0 = none := by
  constructor
  · rfl
  · rfl

/-- Claim C6, counterexample: the visits query has no `ORDER BY`, so the
extraction keeps the engine's enumeration order; a snapshot enumerating
the visit with identifier 2 before the one with identifier 1 yields the
records (and the corresponding entries) in that order, not ascending by
identifier. -/
theorem c6_counterexample :
    ¬ List.Pairwise (fun a b => a.id < b.id)
        (selectedVisits 0 [⟨2, 1, 20, 1⟩, ⟨1, 1, 10, 1⟩]) ∧
    get_history ⟨[⟨1, "a"⟩], [⟨2, 1, 20, 1⟩, ⟨1, 1, 10, 1⟩]⟩ 0 =
      some [⟨"0", "a", 20⟩, ⟨"0", "a", 10⟩] := by
  constructor
  · decide
  · rfl

/-- Claim C6 (amended): extraction preserves the snapshot's enumeration
order, so whenever the engine returns the visit rows ascending by
identifier (as SQLite does for a rowid-keyed table), the selected
records are ascending by identifier. -/
theorem c6_order_amended (N : Nat) (rows : List MozHistoryVisits)
    (hrows : List.Pairwise (fun a b => a.id < b.id) rows) :
    List.Pairwise (fun a b => a.id < b.id) (selectedVisits N rows) :=
  List.Pairwise.filter _ hrows

/-- Witness for C6: an ascending snapshot gives an ascending selection. -/
theorem c6_order_witness :
    List.Pairwise (fun a b => a.id < b.id)
      (selectedVisits 0 [⟨1, 1, 10, 1⟩, ⟨2, 1, 20, 1⟩]) :=
  c6_order_amended 0 [⟨1, 1, 10, 1⟩, ⟨2, 1, 20, 1⟩] (by decide)

/-- Claim C7 (code bug): `State::to_json` opens the state file with
`create(true).write(true)` and no truncate and writes the serialization
in place — there is no write-to-temp-then-rename.  If the write stops
after 30 characters (an I/O failure), the file at the target path is
changed (first 30 characters of the new serialization, rest of the old
content) and no longer parses. -/
theorem c7_partial_write_bug :
    State.to_json ⟨0, 0, 0⟩ (renderState ⟨911, 911, 911⟩) 30 ≠
      renderState ⟨911, 911, 911⟩ ∧
    parseState (State.to_json ⟨0, 0, 0⟩
      (renderState ⟨911, 911, 911⟩) 30) = none := by
  constructor
  · decide
  · rfl

/-- Claim C8 (code bug): `Context::backup_places` copies every profile's
database in one pass before the loop and `.unwrap()`s each copy, so one
profile with a missing source database panics the whole process: with a
first profile whose source is unavailable and a healthy second profile,
`main` aborts (`none`) and the healthy profile is not processed —
whereas the healthy profile alone runs fine. -/
theorem c8_backup_abort_bug :
    mainRun [⟨false, ⟨[], []⟩, ⟨0, 0, 0⟩⟩, ⟨true, ⟨[], []⟩, ⟨0, 0, 0⟩⟩] 5 true =
      none ∧
    mainRun [⟨true, ⟨[], []⟩, ⟨0, 0, 0⟩⟩] 5 true =
      some [⟨⟨5, 0, 0⟩, none, false⟩] := by
  constructor
  · rfl
  · rfl

/-- Claim C9, counterexample: because `to_json` does not truncate, saving
`{0,0,0}` to a path whose file holds the (longer) serialization of
`{911,911,911}` leaves the old content's tail after the new
object; `from_json` then fails on the trailing characters instead of
returning `{0,0,0}`. -/
theorem c9_counterexample :
    State.from_json (some (State.to_json ⟨0, 0, 0⟩
        (renderState ⟨911, 911, 911⟩)
        (renderState ⟨0, 0, 0⟩).length)) ≠ some ⟨0, 0, 0⟩ := by
  decide

/-- Claim C9 (amended): saving a state `s` (fields in `u64` range) and
loading it back yields `s` field for field, provided the prior content
at the path is not longer than the new serialization (in particular when
the file did not exist, `old = []`). -/
theorem c9_roundtrip_amended (s : State) (old : List Char)
    (h1 : s.last_run < 2 ^ 64) (h2 : s.last_sync < 2 ^ 64)
    (h3 : s.last_historyvisit_id < 2 ^ 64)
    (hold : old.length ≤ (renderState s).length) :
    State.from_json (some (State.to_json s old (renderState s).length)) = some s := by
  unfold State.from_json State.to_json
  rw [List.take_length, List.drop_eq_nil_of_le hold, List.append_nil]
  exact parseState_renderState s h1 h2 h3

/-- Witness for C9: saving `{1,2,3}` to a fresh path and loading it back
yields `{1,2,3}`. -/
theorem c9_roundtrip_witness :
    State.from_json (some (State.to_json ⟨1, 2, 3⟩ []
      (renderState ⟨1, 2, 3⟩).length)) = some ⟨1, 2, 3⟩ :=
  c9_roundtrip_amended ⟨1, 2, 3⟩ [] (by decide) (by decide) (by decide)
    (Nat.zero_le _)

/-- Claim C10 (confirmed): when extraction yields zero entries,
`write_history_to_file` is never called (no export file) and the
persisted state differs from the old one only in `last_run`, which is
set to the run's timestamp `now`; `last_sync` and the cursor are
unchanged. -/
theorem c10_empty_batch (st : State) (db : Snapshot) (now : Nat) (writeOk : Bool)
    (hget : get_history db st.last_historyvisit_id = some [])
    (hnow : now < 2 ^ 64) :
    runProfile st db now writeOk =
      ⟨⟨now, st.last_sync, st.last_historyvisit_id⟩, none, false⟩ := by
  have hnowN : now < 18446744073709551616 := hnow
  unfold runProfile
  rw [hget]
  simp [Nat.mod_eq_of_lt hnowN]

/-- Witness for C10: an empty snapshot yields no entries; the run keeps
`last_sync = 2` and cursor `3`, sets `last_run = 5`, writes no export. -/
theorem c10_empty_batch_witness :
    runProfile ⟨1, 2, 3⟩ ⟨[], []⟩ 5 true = ⟨⟨5, 2, 3⟩, none, false⟩ :=
  c10_empty_batch ⟨1, 2, 3⟩ ⟨[], []⟩ 5 true (by decide) (by decide)
